import Mathlib

/-!
Verification development for the Exercise Repetition Detection Engine of the
Rpi4 Human Analysis System repository.  The definitions below are a shallow
embedding of `shoulder_abduction_detector.py`: Python floats are modelled as
exact rationals, the implicit `self` state is threaded explicitly, and the two
wall-clock reads inside one `update` call are modelled by a single time
parameter passed to the call.  Python truthiness of floats (`if x:` treats
`0.0` like `None`) is modelled explicitly where the source relies on it.
-/

namespace ShoulderAbduction

/-- States for exercise detection (`ExerciseState` in the source). -/
inductive ExerciseState where
  | neutral
  | up_phase
  | down_phase
deriving DecidableEq, Repr, Inhabited

/-- Data structure storing information about a single repetition (`RepData`). -/
structure RepData where
  start_time : ℚ
  end_time : Option ℚ := none
  max_angle : Option ℚ := none
  min_angle : Option ℚ := none
  duration : Option ℚ := none
deriving DecidableEq, Repr, Inhabited

/-- `RepData.complete_rep`: set the end time; the duration is only filled in
when `start_time` is truthy in Python, i.e. non-zero. -/
def RepData.complete_rep (r : RepData) (end_time : ℚ) : RepData :=
  let r1 : RepData := { r with end_time := some end_time }
  if r1.start_time ≠ 0 then { r1 with duration := some (end_time - r1.start_time) } else r1

/-- Python `str.lower()` (kernel-computable model of `String.toLower`). -/
def strLower (s : String) : String := String.mk (s.data.map Char.toLower)

/-! Constants assigned in `ShoulderAbductionDetector.__init__` and never
reassigned afterwards. -/

def min_angle_threshold : ℚ := 20
def max_angle_threshold : ℚ := 180
def movement_threshold : ℚ := 8
def sustained_frames_fast : Nat := 2
def sustained_frames_slow : Nat := 2
def slow_movement_threshold : ℚ := 3
def history_size : Nat := 6
def min_phase_duration : ℚ := 1/5
def movement_confirmation_threshold : ℚ := 5/2

/-- The mutable state of one `ShoulderAbductionDetector` instance. -/
structure Detector where
  arm : String
  angle_key : String
  up_movement_count : Nat
  down_movement_count : Nat
  state : ExerciseState
  rep_count : Nat
  current_rep : Option RepData
  rep_history : List RepData
  angle_history : List ℚ
  last_angle : Option ℚ
  peak_angle : Option ℚ
  valley_angle : Option ℚ
  state_change_time : ℚ
  current_movement_direction : Int
  cumulative_movement : ℚ
deriving DecidableEq, Repr

/-- `__init__`: `now` models the `time.time()` read at construction. -/
def mkDetector (arm : String) (now : ℚ) : Detector :=
  let arm1 := if strLower arm ∈ ["left", "right"] then strLower arm else "right"
  { arm := arm1
    angle_key := arm1 ++ "_shoulder"
    up_movement_count := 0
    down_movement_count := 0
    state := ExerciseState.neutral
    rep_count := 0
    current_rep := none
    rep_history := []
    angle_history := []
    last_angle := none
    peak_angle := none
    valley_angle := none
    state_change_time := now
    current_movement_direction := 0
    cumulative_movement := 0 }

/-- `_update_angle_history`: append, then pop the oldest entry past capacity. -/
def update_angle_history (h : List ℚ) (angle : ℚ) : List ℚ :=
  let h1 := h ++ [angle]
  if history_size < h1.length then h1.drop 1 else h1

/-- Consecutive pairwise differences of a list of angles. -/
def diffs : List ℚ → List ℚ
  | a :: b :: rest => (b - a) :: diffs (b :: rest)
  | _ => []

/-- The `recent_changes` list of `_get_sustained_movement_direction`: pairwise
deltas over the last 3 window slots (for a window of length exactly 3 the loop
produces only 2 deltas, matching `if i > 0`). -/
def recentChanges (h : List ℚ) : List ℚ :=
  diffs (h.drop (h.length - 4))

/-- `_get_sustained_movement_direction`: returns the classified direction and
the detector with its counters and cumulative drift updated. -/
def get_sustained_movement_direction (s : Detector) : Int × Detector :=
  if s.angle_history.length < 3 then (0, s)
  else
    let recent_changes := recentChanges s.angle_history
    if recent_changes.isEmpty then (0, s)
    else
      let total_movement : ℚ :=
        if 4 ≤ s.angle_history.length then
          s.angle_history.getD (s.angle_history.length - 1) 0 -
            s.angle_history.getD (s.angle_history.length - 4) 0
        else 0
      let fast_up_moves := (recent_changes.filter (fun c => 4 < c)).length
      let fast_down_moves := (recent_changes.filter (fun c => c < -4)).length
      let slow_up_moves := (recent_changes.filter (fun c => 3/10 < c)).length
      let slow_down_moves := (recent_changes.filter (fun c => c < -(3/10))).length
      let avg_change := recent_changes.sum / (recent_changes.length : ℚ)
      let cum1 : ℚ :=
        if 1/5 < |avg_change| then s.cumulative_movement + avg_change
        else s.cumulative_movement * (92/100)
      if 2 ≤ fast_up_moves ∧ movement_confirmation_threshold < total_movement then
        (1, { s with up_movement_count := s.up_movement_count + 1
                     down_movement_count := 0
                     cumulative_movement := max 0 cum1 })
      else if 2 ≤ fast_down_moves ∧ total_movement < -movement_confirmation_threshold then
        (-1, { s with down_movement_count := s.down_movement_count + 1
                      up_movement_count := 0
                      cumulative_movement := min 0 cum1 })
      else if 2 ≤ slow_up_moves ∧ (2 : ℚ) < cum1 then
        (1, { s with up_movement_count := s.up_movement_count + 1
                     down_movement_count := 0
                     cumulative_movement := cum1 })
      else if 2 ≤ slow_down_moves ∧ cum1 < (-2 : ℚ) then
        (-1, { s with down_movement_count := s.down_movement_count + 1
                      up_movement_count := 0
                      cumulative_movement := cum1 })
      else
        if |total_movement| < 3 then
          (0, { s with up_movement_count := s.up_movement_count - 1
                       down_movement_count := s.down_movement_count - 1
                       cumulative_movement := cum1 })
        else (0, { s with cumulative_movement := cum1 })

/-- `_is_movement_confirmed`. -/
def is_movement_confirmed (s : Detector) (direction : Int) : Bool :=
  if direction = 1 then
    if movement_confirmation_threshold * (3/2) < |s.cumulative_movement| then
      decide (sustained_frames_fast ≤ s.up_movement_count)
    else
      decide (sustained_frames_slow ≤ s.up_movement_count)
  else if direction = -1 then
    if movement_confirmation_threshold * (3/2) < |s.cumulative_movement| then
      decide (sustained_frames_fast ≤ s.down_movement_count)
    else
      decide (sustained_frames_slow ≤ s.down_movement_count)
  else false

/-- `_detect_state_change`: runs the classifier (with its side effects), the
dwell-time gate, and the transition table; returns the proposed next state and
the detector with the classifier's mutations applied. -/
def detect_state_change (s : Detector) (current_angle current_time : ℚ) :
    ExerciseState × Detector :=
  if s.angle_history.length < 3 then (s.state, s)
  else
    let r := get_sustained_movement_direction s
    let movement_direction := r.1
    let s1 := r.2
    let min_time_required : ℚ :=
      if movement_confirmation_threshold * 2 < |s1.cumulative_movement| then
        min_phase_duration * (6/10)
      else min_phase_duration
    if current_time - s1.state_change_time < min_time_required then (s1.state, s1)
    else
      match s1.state with
      | ExerciseState.neutral =>
          if movement_direction = 1 ∧ is_movement_confirmed s1 1 = true ∧
              min_angle_threshold + 15 < current_angle then
            (ExerciseState.up_phase, s1)
          else (s1.state, s1)
      | ExerciseState.up_phase =>
          if (movement_direction = -1 ∧ is_movement_confirmed s1 (-1) = true) ∨
              max_angle_threshold < current_angle then
            (ExerciseState.down_phase, s1)
          else (s1.state, s1)
      | ExerciseState.down_phase =>
          if current_angle ≤ min_angle_threshold + 10 then (ExerciseState.neutral, s1)
          else if movement_direction = 1 ∧ is_movement_confirmed s1 1 = true then
            (ExerciseState.up_phase, s1)
          else (s1.state, s1)

/-- Python `x or d` on an optional float: `None` and `0.0` are both falsy. -/
def orDefault (o : Option ℚ) (d : ℚ) : ℚ :=
  match o with
  | none => d
  | some x => if x = 0 then d else x

/-- `_handle_state_transition`. -/
def handle_state_transition (s : Detector) (new_state : ExerciseState)
    (angle current_time : ℚ) : Detector :=
  let s1 :=
    if new_state = ExerciseState.up_phase ∧ s.state = ExerciseState.neutral then
      { s with current_rep := some { start_time := current_time }
               peak_angle := some angle
               valley_angle := some angle }
    else if new_state = ExerciseState.up_phase ∧ s.state = ExerciseState.down_phase then
      s
    else if new_state = ExerciseState.down_phase ∧ s.state = ExerciseState.up_phase then
      match s.current_rep with
      | some r => { s with current_rep := some { r with max_angle := s.peak_angle } }
      | none => s
    else if new_state = ExerciseState.neutral ∧ s.state = ExerciseState.down_phase then
      let s2 :=
        match s.current_rep with
        | some r =>
            let range_of_motion := orDefault s.peak_angle 0 - orDefault s.valley_angle angle
            if 40 < range_of_motion then
              let r1 := r.complete_rep current_time
              let r2 := { r1 with min_angle := some (orDefault s.valley_angle angle) }
              { s with rep_history := s.rep_history ++ [r2]
                       rep_count := s.rep_count + 1
                       current_rep := none }
            else { s with current_rep := none }
        | none => s
      { s2 with peak_angle := none, valley_angle := none }
    else s
  { s1 with state := new_state
            state_change_time := current_time
            up_movement_count := 0
            down_movement_count := 0
            cumulative_movement := 0 }

/-- `_update_angle_tracking`. -/
def update_angle_tracking (s : Detector) (angle : ℚ) : Detector :=
  match s.state with
  | ExerciseState.up_phase =>
      match s.peak_angle with
      | none => { s with peak_angle := some angle }
      | some p => if p < angle then { s with peak_angle := some angle } else s
  | ExerciseState.down_phase =>
      match s.valley_angle with
      | none => { s with valley_angle := some angle }
      | some v => if angle < v then { s with valley_angle := some angle } else s
  | ExerciseState.neutral => s

/-- Round-half-to-even on an exact rational, modelling Python `round` idealized
over the reals. -/
def roundHalfEven (x : ℚ) : ℤ :=
  let f := Int.floor x
  let frac := x - (f : ℚ)
  if frac < 1/2 then f
  else if 1/2 < frac then f + 1
  else if 2 ∣ f then f else f + 1

/-- Python `round(x, 1)`. -/
def pyRound1 (x : ℚ) : ℚ := (roundHalfEven (x * 10) : ℚ) / 10

/-- Python `str.title()` restricted to the single lowercase words used as limb
names in this program, where it coincides with capitalising the first
character. -/
def pyTitle (s : String) : String :=
  match s.data with
  | [] => String.mk []
  | c :: cs => String.mk (Char.toUpper c :: cs)

/-- Display string of a state: `state.value.replace("_", " ").title()`. -/
def stateDisplay : ExerciseState → String
  | ExerciseState.neutral => "Neutral"
  | ExerciseState.up_phase => "Up Phase"
  | ExerciseState.down_phase => "Down Phase"

/-- `round(x, 1) if x else None` on an optional float (0.0 is falsy). -/
def truthyRound (o : Option ℚ) : Option ℚ :=
  match o with
  | none => none
  | some x => if x = 0 then none else some (pyRound1 x)

/-- The `debug_info` dictionary built by a successful `update` call. -/
structure DebugInfo where
  movement_direction : Int
  up_count : Nat
  down_count : Nat
  up_confirmed : Bool
  down_confirmed : Bool
  cumulative_movement : ℚ
  recent_angles : List ℚ
deriving DecidableEq, Repr

/-- The status dictionary returned by `update`.  Optional fields model keys
that are present in only one of the two return branches of the source; the
`debug_info` key holds a plain string in the no-detection branch
(`debug_str`) and a dictionary in the normal branch (`debug_info`). -/
structure Status where
  exercise : String
  arm : String
  rep_count : Nat
  state : String
  angle : Option ℚ
  feedback : Option String := none
  debug_str : Option String := none
  peak_angle : Option ℚ := none
  valley_angle : Option ℚ := none
  debug_info : Option DebugInfo := none
deriving DecidableEq, Repr

/-- `angles_dict.get(key)` on a dictionary of optional floats, modelled as an
association list: an absent key and a key mapped to `None` both yield `none`. -/
def dictGet (d : List (String × Option ℚ)) (k : String) : Option ℚ :=
  match d.find? (fun p => p.1 == k) with
  | some p => p.2
  | none => none

/-- `ShoulderAbductionDetector.update`: the single mutating entry point.
`current_time` models both `time.time()` reads made during one call. -/
def update (s : Detector) (angles_dict : List (String × Option ℚ))
    (current_time : ℚ) : Detector × Status :=
  let raw_angle := dictGet angles_dict s.angle_key
  match raw_angle with
  | none =>
      (s, { exercise := "shoulder Abduction"
            arm := pyTitle s.arm
            rep_count := s.rep_count
            state := "No Detection"
            angle := none
            feedback := some (pyTitle s.arm ++ " shoulder not visible")
            debug_str := some "Camera cannot see shoulder" })
  | some current_angle =>
      let sh := { s with angle_history := update_angle_history s.angle_history current_angle }
      let r1 := get_sustained_movement_direction sh
      let movement_direction := r1.1
      let s1 := r1.2
      let r2 := detect_state_change s1 current_angle current_time
      let new_state := r2.1
      let s2 := r2.2
      let s3 :=
        if new_state ≠ s2.state then handle_state_transition s2 new_state current_angle current_time
        else s2
      let s4 := update_angle_tracking s3 current_angle
      let s5 := { s4 with last_angle := some current_angle }
      (s5,
        { exercise := "shoulder Abduction"
          arm := pyTitle s5.arm
          rep_count := s5.rep_count
          state := stateDisplay s5.state
          angle := some (pyRound1 current_angle)
          peak_angle := truthyRound s5.peak_angle
          valley_angle := truthyRound s5.valley_angle
          debug_info := some
            { movement_direction := movement_direction
              up_count := s5.up_movement_count
              down_count := s5.down_movement_count
              up_confirmed := is_movement_confirmed s5 1
              down_confirmed := is_movement_confirmed s5 (-1)
              cumulative_movement := pyRound1 s5.cumulative_movement
              recent_angles :=
                if 3 ≤ s5.angle_history.length then
                  (s5.angle_history.drop (s5.angle_history.length - 3)).map pyRound1
                else [] } })

/-- `reset`. -/
def reset (s : Detector) : Detector :=
  { s with state := ExerciseState.neutral
           rep_count := 0
           current_rep := none
           rep_history := []
           last_angle := none
           peak_angle := none
           valley_angle := none
           angle_history := []
           up_movement_count := 0
           down_movement_count := 0
           current_movement_direction := 0
           cumulative_movement := 0 }

/-- `switch_arm` (the spec calls it `switch_limb`): validates the limb name,
and on success updates the tracked arm and angle key and resets. -/
def switch_arm (s : Detector) (new_arm : String) : Detector × Bool :=
  if strLower new_arm ∈ ["left", "right"] then
    let s1 := { s with arm := strLower new_arm, angle_key := strLower new_arm ++ "_shoulder" }
    (reset s1, true)
  else (s, false)

/-- `get_current_arm`. -/
def get_current_arm (s : Detector) : String := s.arm

/-- The statistics dictionary returned by `get_stats`.  `last_rep_duration` is
optional because the empty-ledger branch of the source omits that key. -/
structure Stats where
  total_reps : Nat
  avg_duration : ℚ
  avg_range_of_motion : ℚ
  last_rep_duration : Option ℚ
  arm : String
deriving DecidableEq, Repr

/-- `get_stats`: a pure read of the repetition ledger. -/
def get_stats (s : Detector) : Stats :=
  match s.rep_history with
  | [] =>
      { total_reps := 0
        avg_duration := 0
        avg_range_of_motion := 0
        last_rep_duration := none
        arm := s.arm }
  | _ :: _ =>
      let durations := s.rep_history.filterMap (fun r =>
        match r.duration with
        | some d => if d = 0 then none else some d
        | none => none)
      let ranges := s.rep_history.filterMap (fun r =>
        match r.max_angle, r.min_angle with
        | some mx, some mn => some (mx - mn)
        | _, _ => none)
      let lastRep := s.rep_history.getLastD { start_time := 0 }
      { total_reps := s.rep_history.length
        avg_duration :=
          if durations.length ≠ 0 then pyRound1 (durations.sum / (durations.length : ℚ)) else 0
        avg_range_of_motion :=
          if ranges.length ≠ 0 then pyRound1 (ranges.sum / (ranges.length : ℚ)) else 0
        last_rep_duration := some
          (match lastRep.duration with
           | some d => if d = 0 then 0 else pyRound1 d
           | none => 0)
        arm := s.arm }

/-- Feed a list of valid angle readings to the detector, one `update` per
sample, with call times `t0, t0 + 1, t0 + 2, ...`. -/
def runAngles (s : Detector) (angles : List ℚ) (t0 : ℚ) : Detector :=
  match angles with
  | [] => s
  | a :: rest => runAngles (update s [(s.angle_key, some a)] t0).1 rest (t0 + 1)

/-- A well-formed completed repetition: its end time and duration are filled
in, the duration is the difference of end and start times and is nonnegative,
and its range of motion clears the 40 degree gate. -/
def GoodRep (r : RepData) : Prop :=
  ∃ e dur mx mn, r.end_time = some e ∧ r.duration = some dur ∧
    dur = e - r.start_time ∧ 0 ≤ dur ∧
    r.max_angle = some mx ∧ r.min_angle = some mn ∧ 40 ≤ mx - mn

/-- The state invariant backing C1, relative to the time `t` of the last
call: every ledger entry is a `GoodRep`; an open candidate was started at a
positive time not later than `t`; in DownPhase the candidate's frozen
`max_angle` is the tracked peak; and outside Neutral the peak is present. -/
def DetInv (s : Detector) (t : ℚ) : Prop :=
  (∀ r ∈ s.rep_history, GoodRep r) ∧
  (∀ r, s.current_rep = some r → 0 < r.start_time ∧ r.start_time ≤ t) ∧
  (s.state = ExerciseState.down_phase → ∀ r, s.current_rep = some r →
    r.max_angle = s.peak_angle) ∧
  (s.state ≠ ExerciseState.neutral → ∃ p, s.peak_angle = some p)

/-- Detector states reachable from construction through `update` calls made
at positive, non-decreasing times (the wall clock of the source is both). -/
inductive ReachableAt : Detector → ℚ → Prop where
  | init (arm : String) (t0 : ℚ) : ReachableAt (mkDetector arm t0) t0
  | step {s : Detector} {t : ℚ} (d : List (String × Option ℚ)) {t1 : ℚ}
      (hr : ReachableAt s t) (hle : t ≤ t1) (hpos : 0 < t1) :
      ReachableAt (update s d t1).1 t1

/-! ### Structural lemmas about the embedded operations -/

set_option maxHeartbeats 2000000 in
theorem gsmd_preserves (s : Detector) :
    (get_sustained_movement_direction s).2.rep_history = s.rep_history ∧
    (get_sustained_movement_direction s).2.current_rep = s.current_rep ∧
    (get_sustained_movement_direction s).2.state = s.state ∧
    (get_sustained_movement_direction s).2.peak_angle = s.peak_angle ∧
    (get_sustained_movement_direction s).2.valley_angle = s.valley_angle ∧
    (get_sustained_movement_direction s).2.rep_count = s.rep_count ∧
    (get_sustained_movement_direction s).2.state_change_time = s.state_change_time ∧
    (get_sustained_movement_direction s).2.angle_history = s.angle_history ∧
    (get_sustained_movement_direction s).2.arm = s.arm ∧
    (get_sustained_movement_direction s).2.angle_key = s.angle_key ∧
    (get_sustained_movement_direction s).2.last_angle = s.last_angle := by
  unfold get_sustained_movement_direction
  dsimp only
  split_ifs <;> exact ⟨rfl, rfl, rfl, rfl, rfl, rfl, rfl, rfl, rfl, rfl, rfl⟩

set_option maxHeartbeats 2000000 in
theorem gsmd_amo (s : Detector)
    (h : s.up_movement_count = 0 ∨ s.down_movement_count = 0) :
    (get_sustained_movement_direction s).2.up_movement_count = 0 ∨
    (get_sustained_movement_direction s).2.down_movement_count = 0 := by
  unfold get_sustained_movement_direction
  dsimp only
  split_ifs <;> dsimp only <;> omega

set_option maxHeartbeats 2000000 in
theorem detect_snd (s : Detector) (a t : ℚ) :
    (detect_state_change s a t).2 = s ∨
      (detect_state_change s a t).2 = (get_sustained_movement_direction s).2 := by
  unfold detect_state_change
  dsimp only
  split_ifs
  · exact Or.inl rfl
  all_goals
    cases hst : (get_sustained_movement_direction s).2.state <;>
      dsimp only <;> (try split_ifs) <;> exact Or.inr rfl

set_option maxHeartbeats 2000000 in
theorem detect_cases (s : Detector) (a t : ℚ) :
    (detect_state_change s a t).1 = s.state ∨
      (s.state = ExerciseState.neutral ∧ (detect_state_change s a t).1 = ExerciseState.up_phase) ∨
      (s.state = ExerciseState.up_phase ∧ (detect_state_change s a t).1 = ExerciseState.down_phase) ∨
      (s.state = ExerciseState.down_phase ∧
        ((detect_state_change s a t).1 = ExerciseState.neutral ∨
          (detect_state_change s a t).1 = ExerciseState.up_phase)) := by
  have hpres := (gsmd_preserves s).2.2.1
  unfold detect_state_change
  dsimp only
  split_ifs
  · exact Or.inl rfl
  all_goals
    cases hst : (get_sustained_movement_direction s).2.state <;>
      rw [hst] at hpres <;> dsimp only <;> (try split_ifs) <;>
        first
          | exact Or.inl hpres
          | exact Or.inl rfl
          | exact Or.inr (Or.inl ⟨hpres.symm, rfl⟩)
          | exact Or.inr (Or.inr (Or.inl ⟨hpres.symm, rfl⟩))
          | exact Or.inr (Or.inr (Or.inr ⟨hpres.symm, Or.inl rfl⟩))
          | exact Or.inr (Or.inr (Or.inr ⟨hpres.symm, Or.inr rfl⟩))

theorem handle_state (s : Detector) (ns : ExerciseState) (a t : ℚ) :
    (handle_state_transition s ns a t).state = ns := rfl

theorem handle_counts (s : Detector) (ns : ExerciseState) (a t : ℚ) :
    (handle_state_transition s ns a t).up_movement_count = 0 ∧
    (handle_state_transition s ns a t).down_movement_count = 0 := ⟨rfl, rfl⟩

theorem tracking_neutral (s : Detector) (a : ℚ) (h : s.state = ExerciseState.neutral) :
    update_angle_tracking s a = s := by
  unfold update_angle_tracking; rw [h]

theorem tracking_up_none (s : Detector) (a : ℚ) (h : s.state = ExerciseState.up_phase)
    (hp : s.peak_angle = none) :
    update_angle_tracking s a = { s with peak_angle := some a } := by
  unfold update_angle_tracking; rw [h, hp]

theorem tracking_up_some (s : Detector) (a p : ℚ) (h : s.state = ExerciseState.up_phase)
    (hp : s.peak_angle = some p) :
    update_angle_tracking s a = if p < a then { s with peak_angle := some a } else s := by
  unfold update_angle_tracking; rw [h, hp]

theorem tracking_down_none (s : Detector) (a : ℚ) (h : s.state = ExerciseState.down_phase)
    (hv : s.valley_angle = none) :
    update_angle_tracking s a = { s with valley_angle := some a } := by
  unfold update_angle_tracking; rw [h, hv]

theorem tracking_down_some (s : Detector) (a v : ℚ) (h : s.state = ExerciseState.down_phase)
    (hv : s.valley_angle = some v) :
    update_angle_tracking s a = if a < v then { s with valley_angle := some a } else s := by
  unfold update_angle_tracking; rw [h, hv]

theorem handle_neutral_to_up (s : Detector) (a t : ℚ) (h : s.state = ExerciseState.neutral) :
    handle_state_transition s ExerciseState.up_phase a t =
      { s with current_rep := some { start_time := t }
               peak_angle := some a
               valley_angle := some a
               state := ExerciseState.up_phase
               state_change_time := t
               up_movement_count := 0
               down_movement_count := 0
               cumulative_movement := 0 } := by
  unfold handle_state_transition
  rw [h]
  simp

theorem handle_down_to_up (s : Detector) (a t : ℚ) (h : s.state = ExerciseState.down_phase) :
    handle_state_transition s ExerciseState.up_phase a t =
      { s with state := ExerciseState.up_phase
               state_change_time := t
               up_movement_count := 0
               down_movement_count := 0
               cumulative_movement := 0 } := by
  unfold handle_state_transition
  rw [h]
  simp

theorem handle_up_to_down_some (s : Detector) (r : RepData) (a t : ℚ)
    (h : s.state = ExerciseState.up_phase) (hr : s.current_rep = some r) :
    handle_state_transition s ExerciseState.down_phase a t =
      { s with current_rep := some { r with max_angle := s.peak_angle }
               state := ExerciseState.down_phase
               state_change_time := t
               up_movement_count := 0
               down_movement_count := 0
               cumulative_movement := 0 } := by
  unfold handle_state_transition
  rw [h, hr]
  simp

theorem handle_up_to_down_none (s : Detector) (a t : ℚ)
    (h : s.state = ExerciseState.up_phase) (hr : s.current_rep = none) :
    handle_state_transition s ExerciseState.down_phase a t =
      { s with state := ExerciseState.down_phase
               state_change_time := t
               up_movement_count := 0
               down_movement_count := 0
               cumulative_movement := 0 } := by
  unfold handle_state_transition
  rw [h, hr]
  simp [hr]

theorem handle_commit (s : Detector) (r : RepData) (a t : ℚ)
    (h : s.state = ExerciseState.down_phase) (hr : s.current_rep = some r)
    (hgate : 40 < orDefault s.peak_angle 0 - orDefault s.valley_angle a) :
    handle_state_transition s ExerciseState.neutral a t =
      { s with rep_history := s.rep_history ++
                 [{ r.complete_rep t with min_angle := some (orDefault s.valley_angle a) }]
               rep_count := s.rep_count + 1
               current_rep := none
               peak_angle := none
               valley_angle := none
               state := ExerciseState.neutral
               state_change_time := t
               up_movement_count := 0
               down_movement_count := 0
               cumulative_movement := 0 } := by
  unfold handle_state_transition
  rw [h, hr]
  simp [hgate]

theorem handle_discard (s : Detector) (r : RepData) (a t : ℚ)
    (h : s.state = ExerciseState.down_phase) (hr : s.current_rep = some r)
    (hgate : ¬ (40 < orDefault s.peak_angle 0 - orDefault s.valley_angle a)) :
    handle_state_transition s ExerciseState.neutral a t =
      { s with current_rep := none
               peak_angle := none
               valley_angle := none
               state := ExerciseState.neutral
               state_change_time := t
               up_movement_count := 0
               down_movement_count := 0
               cumulative_movement := 0 } := by
  unfold handle_state_transition
  rw [h, hr]
  simp [hgate]

theorem handle_norep (s : Detector) (a t : ℚ)
    (h : s.state = ExerciseState.down_phase) (hr : s.current_rep = none) :
    handle_state_transition s ExerciseState.neutral a t =
      { s with peak_angle := none
               valley_angle := none
               state := ExerciseState.neutral
               state_change_time := t
               up_movement_count := 0
               down_movement_count := 0
               cumulative_movement := 0 } := by
  unfold handle_state_transition
  rw [h, hr]
  simp [hr]


theorem update_fst_none (s : Detector) (d : List (String × Option ℚ)) (t : ℚ)
    (h : dictGet d s.angle_key = none) : (update s d t).1 = s := by
  simp only [update, h]

theorem update_snd_none (s : Detector) (d : List (String × Option ℚ)) (t : ℚ)
    (h : dictGet d s.angle_key = none) :
    (update s d t).2 =
      { exercise := "shoulder Abduction"
        arm := pyTitle s.arm
        rep_count := s.rep_count
        state := "No Detection"
        angle := none
        feedback := some (pyTitle s.arm ++ " shoulder not visible")
        debug_str := some "Camera cannot see shoulder" } := by
  simp only [update, h]

theorem update_fst_some (s : Detector) (d : List (String × Option ℚ)) (t a : ℚ)
    (h : dictGet d s.angle_key = some a) :
    (update s d t).1 =
      (let c := (get_sustained_movement_direction
          { s with angle_history := update_angle_history s.angle_history a }).2
       let r2 := detect_state_change c a t
       let s3 := if r2.1 ≠ r2.2.state then handle_state_transition r2.2 r2.1 a t else r2.2
       { update_angle_tracking s3 a with last_angle := some a }) := by
  simp only [update, h]

theorem orDefault_some_zero (x : ℚ) : orDefault (some x) 0 = x := by
  unfold orDefault
  dsimp only
  split_ifs with h1
  · exact h1.symm
  · rfl

theorem tracking_spec (s : Detector) (a : ℚ) :
    ∃ p v, update_angle_tracking s a = { s with peak_angle := p, valley_angle := v } := by
  obtain ⟨arm, key, up, down, st, rc, cr, rh, ah, la, pa, va, sct, cmd, cm⟩ := s
  unfold update_angle_tracking
  cases st <;> dsimp only
  · exact ⟨pa, va, rfl⟩
  · cases pa with
    | none => exact ⟨some a, va, rfl⟩
    | some p =>
        dsimp only
        refine ⟨if p < a then some a else some p, va, ?_⟩
        split_ifs <;> rfl
  · cases va with
    | none => exact ⟨pa, some a, rfl⟩
    | some v =>
        dsimp only
        refine ⟨pa, if a < v then some a else some v, ?_⟩
        split_ifs <;> rfl

theorem get_stats_nil (s : Detector) (h : s.rep_history = []) :
    get_stats s =
      { total_reps := 0, avg_duration := 0, avg_range_of_motion := 0,
        last_rep_duration := none, arm := s.arm } := by
  unfold get_stats
  rw [h]


/-! ### Claim theorems -/

/-- Claim C2: for any detector state, `reset` restores every documented field of the
just-constructed state (phase Neutral, zero rep count, empty ledger, discarded
candidate, empty history, cleared angle trackers, zeroed movement counters and
cumulative drift), and `reset` is idempotent. -/
theorem reset_restores_initial_state_and_is_idempotent (s : Detector) :
    (reset s).state = ExerciseState.neutral ∧
    (reset s).rep_count = 0 ∧
    (reset s).rep_history = [] ∧
    (reset s).current_rep = none ∧
    (reset s).angle_history = [] ∧
    (reset s).peak_angle = none ∧
    (reset s).valley_angle = none ∧
    (reset s).last_angle = none ∧
    (reset s).up_movement_count = 0 ∧
    (reset s).down_movement_count = 0 ∧
    (reset s).cumulative_movement = 0 ∧
    (reset s).current_movement_direction = 0 ∧
    reset (reset s) = reset s :=
  ⟨rfl, rfl, rfl, rfl, rfl, rfl, rfl, rfl, rfl, rfl, rfl, rfl, rfl⟩

/-- Claim C3: an `update` call whose angle reading is missing (key absent or mapped
to none) returns a No Detection status carrying the current rep count and a
diagnostic string, and leaves the whole detector state unchanged. -/
theorem missing_angle_short_circuits (s : Detector) (d : List (String × Option ℚ)) (t : ℚ)
    (h : dictGet d s.angle_key = none) :
    (update s d t).1 = s ∧
    (update s d t).2.state = "No Detection" ∧
    (update s d t).2.rep_count = s.rep_count ∧
    (update s d t).2.angle = none ∧
    (update s d t).2.feedback = some (pyTitle s.arm ++ " shoulder not visible") ∧
    (update s d t).2.debug_str = some "Camera cannot see shoulder" := by
  refine ⟨update_fst_none s d t h, ?_, ?_, ?_, ?_, ?_⟩ <;>
    rw [update_snd_none s d t h]

/-- Witness for C3 at a concrete detector and an empty angle dictionary. -/
theorem missing_angle_short_circuits_witness :
    (update (mkDetector "right" 0) [] 1).1 = mkDetector "right" 0 ∧
    (update (mkDetector "right" 0) [] 1).2.state = "No Detection" ∧
    (update (mkDetector "right" 0) [] 1).2.rep_count = 0 ∧
    (update (mkDetector "right" 0) [] 1).2.angle = none ∧
    (update (mkDetector "right" 0) [] 1).2.feedback = some "Right shoulder not visible" ∧
    (update (mkDetector "right" 0) [] 1).2.debug_str = some "Camera cannot see shoulder" := by
  have h := missing_angle_short_circuits (mkDetector "right" 0) [] 1 (by with_unfolding_all decide)
  refine ⟨h.1, h.2.1, h.2.2.1, h.2.2.2.1, ?_, h.2.2.2.2.2⟩
  rw [h.2.2.2.2.1]
  with_unfolding_all decide

/-- Claim C6, amended: on an empty Repetition Ledger, `get_stats` returns zero
total reps, zero average duration and zero average range of motion without
error, but the returned dictionary carries no `last_rep_duration` key at all
(modelled as `none`), rather than the key with value 0 that the claim
states.  `get_stats` is a pure read by construction of the embedding. -/
theorem get_stats_empty_ledger (s : Detector) (h : s.rep_history = []) :
    get_stats s =
      { total_reps := 0, avg_duration := 0, avg_range_of_motion := 0,
        last_rep_duration := none, arm := s.arm } :=
  get_stats_nil s h

/-- Witness for the amended C6 on a freshly constructed detector. -/
theorem get_stats_empty_ledger_witness :
    get_stats (mkDetector "right" 0) =
      { total_reps := 0, avg_duration := 0, avg_range_of_motion := 0,
        last_rep_duration := none, arm := "right" } := by
  have h := get_stats_empty_ledger (mkDetector "right" 0) (by with_unfolding_all decide)
  rw [h]
  with_unfolding_all decide

/-- Counterexample to C6 as stated: on an empty ledger the stats dictionary
does not contain `last_rep_duration = 0`; the source's empty-ledger branch
omits that key entirely. -/
theorem get_stats_empty_ledger_counterexample :
    (mkDetector "right" 0).rep_history = [] ∧
    (get_stats (mkDetector "right" 0)).last_rep_duration ≠ some 0 ∧
    (get_stats (mkDetector "right" 0)).last_rep_duration = none := by
  with_unfolding_all decide

/-- Claim C5: `switch_arm` validates the limb name case-insensitively; an invalid
name leaves the state unchanged and reports failure, while a valid name
rewrites `angle_key` for the new limb and performs a full reset, after which
`get_stats` reports zero total reps. -/
theorem switch_arm_validates_and_resets :
    (∀ (s : Detector) (newArm : String),
      strLower newArm ∉ (["left", "right"] : List String) →
        switch_arm s newArm = (s, false)) ∧
    (∀ (s : Detector) (newArm : String),
      strLower newArm ∈ (["left", "right"] : List String) →
        (switch_arm s newArm).1.angle_key = strLower newArm ++ "_shoulder" ∧
        (switch_arm s newArm).1 =
          reset { s with arm := strLower newArm,
                         angle_key := strLower newArm ++ "_shoulder" } ∧
        (switch_arm s newArm).2 = true ∧
        (get_stats (switch_arm s newArm).1).total_reps = 0) := by
  constructor
  · intro s newArm h
    unfold switch_arm
    rw [if_neg h]
  · intro s newArm h
    unfold switch_arm
    rw [if_pos h]
    refine ⟨rfl, rfl, rfl, ?_⟩
    rw [get_stats_nil _ rfl]

/-- Witness for C5: an invalid name is rejected without a state change, and
switching a detector that has accrued 3 reps to the left limb zeroes the
reported total. -/
theorem switch_arm_validates_and_resets_witness :
    switch_arm (mkDetector "right" 0) "Both" = (mkDetector "right" 0, false) ∧
    (get_stats (switch_arm { mkDetector "right" 0 with rep_count := 3 } "LEFT").1).total_reps
      = 0 := by
  constructor
  · exact switch_arm_validates_and_resets.1 (mkDetector "right" 0) "Both"
      (by with_unfolding_all decide)
  · exact (switch_arm_validates_and_resets.2 _ "LEFT" (by with_unfolding_all decide)).2.2.2


/-- Claim C8: with at least 3 samples of history and the dwell-time requirement
satisfied, the boundary angle belongs to the closing side of each transition:
in DownPhase an angle of exactly `min_angle_threshold + 10` transitions to
Neutral (inclusive comparison), while in Neutral an angle of exactly
`min_angle_threshold + 15` does not leave Neutral even when upward movement is
confirmed (strict comparison). -/
theorem threshold_boundaries (s : Detector) (t : ℚ)
    (hlen : 3 ≤ s.angle_history.length)
    (hdwell : min_phase_duration ≤ t - s.state_change_time) :
    (s.state = ExerciseState.down_phase →
      (detect_state_change s (min_angle_threshold + 10) t).1 = ExerciseState.neutral) ∧
    (s.state = ExerciseState.neutral →
      (detect_state_change s (min_angle_threshold + 15) t).1 = ExerciseState.neutral) := by
  have hpres := gsmd_preserves s
  have hsct : (get_sustained_movement_direction s).2.state_change_time = s.state_change_time :=
    hpres.2.2.2.2.2.2.1
  have hstate : (get_sustained_movement_direction s).2.state = s.state := hpres.2.2.1
  have hnd : ¬ (t - (get_sustained_movement_direction s).2.state_change_time <
      (if movement_confirmation_threshold * 2 <
          |(get_sustained_movement_direction s).2.cumulative_movement| then
        min_phase_duration * (6/10)
      else min_phase_duration)) := by
    rw [hsct]
    have hmp : (0 : ℚ) < min_phase_duration := by norm_num [min_phase_duration]
    split_ifs
    · have : min_phase_duration * (6/10) ≤ min_phase_duration := by
        norm_num [min_phase_duration]
      linarith
    · linarith
  constructor
  · intro hdown
    unfold detect_state_change
    dsimp only
    rw [if_neg (by omega : ¬ s.angle_history.length < 3), if_neg hnd, hstate, hdown]
    dsimp only
    rw [if_pos (le_refl (min_angle_threshold + 10))]
  · intro hneutral
    unfold detect_state_change
    dsimp only
    rw [if_neg (by omega : ¬ s.angle_history.length < 3), if_neg hnd, hstate, hneutral]
    dsimp only
    rw [if_neg (fun hc => absurd hc.2.2 (lt_irrefl (min_angle_threshold + 15)))]

/-- Witness for C8 on concrete detector states with 3 history samples and
ample dwell time. -/
theorem threshold_boundaries_witness :
    (detect_state_change
        { mkDetector "right" 0 with state := ExerciseState.down_phase,
                                    angle_history := [50, 45, 40] }
        (min_angle_threshold + 10) 1).1 = ExerciseState.neutral ∧
    (detect_state_change
        { mkDetector "right" 0 with angle_history := [20, 21, 22] }
        (min_angle_threshold + 15) 1).1 = ExerciseState.neutral := by
  constructor
  · exact (threshold_boundaries _ 1 (by with_unfolding_all decide)
      (by with_unfolding_all decide)).1 rfl
  · exact (threshold_boundaries _ 1 (by with_unfolding_all decide)
      (by with_unfolding_all decide)).2 rfl

/-- Claim C9: across an `update` call with a valid angle reading that both starts
and ends in UpPhase, `peak_angle` does not decrease; symmetrically, a call
that stays in DownPhase never increases `valley_angle`. -/
theorem peak_valley_phase_monotone (s : Detector) (d : List (String × Option ℚ)) (t a : ℚ)
    (ha : dictGet d s.angle_key = some a) :
    (∀ p, s.state = ExerciseState.up_phase → s.peak_angle = some p →
      (update s d t).1.state = ExerciseState.up_phase →
      ∃ q, (update s d t).1.peak_angle = some q ∧ p ≤ q) ∧
    (∀ v, s.state = ExerciseState.down_phase → s.valley_angle = some v →
      (update s d t).1.state = ExerciseState.down_phase →
      ∃ w, (update s d t).1.valley_angle = some w ∧ w ≤ v) := by
  rw [update_fst_some s d t a ha]
  dsimp only
  set c := (get_sustained_movement_direction
      { s with angle_history := update_angle_history s.angle_history a }).2 with hc
  set r2 := detect_state_change c a t with hr2
  have hcpres := gsmd_preserves { s with angle_history := update_angle_history s.angle_history a }
  have hcs : c.state = s.state := hcpres.2.2.1
  have hcp : c.peak_angle = s.peak_angle := hcpres.2.2.2.1
  have hcv : c.valley_angle = s.valley_angle := hcpres.2.2.2.2.1
  have h2 := detect_snd c a t
  have hgc := gsmd_preserves c
  have h2s : r2.2.state = s.state := by
    rcases h2 with h2 | h2 <;> rw [← hr2] at h2 <;> rw [h2]
    · exact hcs
    · rw [hgc.2.2.1]; exact hcs
  have h2p : r2.2.peak_angle = s.peak_angle := by
    rcases h2 with h2 | h2 <;> rw [← hr2] at h2 <;> rw [h2]
    · exact hcp
    · rw [hgc.2.2.2.1]; exact hcp
  have h2v : r2.2.valley_angle = s.valley_angle := by
    rcases h2 with h2 | h2 <;> rw [← hr2] at h2 <;> rw [h2]
    · exact hcv
    · rw [hgc.2.2.2.2.1]; exact hcv
  by_cases hbr : r2.1 ≠ r2.2.state
  · rw [if_pos hbr]
    -- a transition happened: the post-call state is the new state r2.1,
    -- which differs from the pre-call state, so both implications are vacuous
    obtain ⟨pp, vv, htr⟩ := tracking_spec (handle_state_transition r2.2 r2.1 a t) a
    constructor
    · intro p hup hpk hafter
      exfalso
      rw [htr] at hafter
      have : r2.1 = ExerciseState.up_phase := by
        simpa [handle_state] using hafter
      exact hbr (by rw [this, h2s, hup])
    · intro v hdown hvl hafter
      exfalso
      rw [htr] at hafter
      have : r2.1 = ExerciseState.down_phase := by
        simpa [handle_state] using hafter
      exact hbr (by rw [this, h2s, hdown])
  · rw [if_neg hbr]
    constructor
    · intro p hup hpk hafter
      have h3s : r2.2.state = ExerciseState.up_phase := by rw [h2s, hup]
      have h3p : r2.2.peak_angle = some p := by rw [h2p, hpk]
      rw [tracking_up_some r2.2 a p h3s h3p]
      split_ifs with hlt
      · exact ⟨a, rfl, le_of_lt hlt⟩
      · exact ⟨p, h3p, le_refl p⟩
    · intro v hdown hvl hafter
      have h3s : r2.2.state = ExerciseState.down_phase := by rw [h2s, hdown]
      have h3v : r2.2.valley_angle = some v := by rw [h2v, hvl]
      rw [tracking_down_some r2.2 a v h3s h3v]
      split_ifs with hlt
      · exact ⟨a, rfl, le_of_lt hlt⟩
      · exact ⟨v, h3v, le_refl v⟩

/-- Witness for C9: a detector in UpPhase with peak 50 reading 60 keeps a
non-decreasing peak; one in DownPhase with valley 50 reading 40 keeps a
non-increasing valley. -/
theorem peak_valley_phase_monotone_witness :
    (∃ q, (update { mkDetector "right" 0 with state := ExerciseState.up_phase,
                                               peak_angle := some 50 }
        [("right_shoulder", some 60)] 1).1.peak_angle = some q ∧ (50 : ℚ) ≤ q) ∧
    (∃ w, (update { mkDetector "right" 0 with state := ExerciseState.down_phase,
                                               valley_angle := some 50 }
        [("right_shoulder", some 40)] 1).1.valley_angle = some w ∧ w ≤ (50 : ℚ)) := by
  constructor
  · exact (peak_valley_phase_monotone _ _ 1 60 (by with_unfolding_all decide)).1 50 rfl rfl
      (by with_unfolding_all decide)
  · exact (peak_valley_phase_monotone _ _ 1 40 (by with_unfolding_all decide)).2 50 rfl rfl
      (by with_unfolding_all decide)


/-- Counterexample to C4 as stated: a stream of four samples, each within 2
degrees of the constant 22 and with consecutive deltas alternating in sign
(an oscillation), drives `up_movement_count` up to `sustained_frames_slow`
(2) after four `update` calls, because the movement classifier runs twice per
call and its slow-motion rule accumulates the drift of the rising zigzag. -/
theorem noise_band_reaches_threshold_counterexample :
    (∀ x ∈ ([20, 108/5, 106/5, 114/5] : List ℚ), |x - 22| ≤ 2) ∧
    diffs ([20, 108/5, 106/5, 114/5] : List ℚ) = [8/5, -(2/5), 8/5] ∧
    (runAngles (mkDetector "right" 0) [20, 108/5, 106/5, 114/5] 1).up_movement_count =
      sustained_frames_slow := by
  with_unfolding_all decide

/-- Claim C4, amended: on the concrete wiggle sequence `[20,22,19,21,20,23,19]`
from the spec scenario, after every prefix of `update` calls both movement
counters stay strictly below `sustained_frames_slow`, the state stays
Neutral, and the rep count stays 0.  (The generalisation to every sample
stream inside a ±2 degree band is refuted by the counterexample.) -/
theorem wiggle_sequence_stays_neutral :
    ∀ n : Nat, n ≤ 7 →
      (runAngles (mkDetector "right" 0)
          (List.take n ([20, 22, 19, 21, 20, 23, 19] : List ℚ)) 1).up_movement_count <
        sustained_frames_slow ∧
      (runAngles (mkDetector "right" 0)
          (List.take n ([20, 22, 19, 21, 20, 23, 19] : List ℚ)) 1).down_movement_count <
        sustained_frames_slow ∧
      (runAngles (mkDetector "right" 0)
          (List.take n ([20, 22, 19, 21, 20, 23, 19] : List ℚ)) 1).state =
        ExerciseState.neutral ∧
      (runAngles (mkDetector "right" 0)
          (List.take n ([20, 22, 19, 21, 20, 23, 19] : List ℚ)) 1).rep_count = 0 := by
  with_unfolding_all decide

/-- Witness for the amended C4 at the full 7-call run. -/
theorem wiggle_sequence_stays_neutral_witness :
    (runAngles (mkDetector "right" 0)
        (List.take 7 ([20, 22, 19, 21, 20, 23, 19] : List ℚ)) 1).up_movement_count <
      sustained_frames_slow ∧
    (runAngles (mkDetector "right" 0)
        (List.take 7 ([20, 22, 19, 21, 20, 23, 19] : List ℚ)) 1).down_movement_count <
      sustained_frames_slow ∧
    (runAngles (mkDetector "right" 0)
        (List.take 7 ([20, 22, 19, 21, 20, 23, 19] : List ℚ)) 1).state =
      ExerciseState.neutral ∧
    (runAngles (mkDetector "right" 0)
        (List.take 7 ([20, 22, 19, 21, 20, 23, 19] : List ℚ)) 1).rep_count = 0 :=
  wiggle_sequence_stays_neutral 7 (by decide)

/-- Counterexample to C7 as stated: immediately after construction both
consecutive-direction counters are zero, so it is not the case that exactly
one of them is non-zero. -/
theorem exactly_one_counter_nonzero_counterexample :
    ¬ (((mkDetector "right" 0).up_movement_count ≠ 0 ∧
          (mkDetector "right" 0).down_movement_count = 0) ∨
       ((mkDetector "right" 0).up_movement_count = 0 ∧
          (mkDetector "right" 0).down_movement_count ≠ 0)) := by
  with_unfolding_all decide

/-- Claim C7, amended: at most one of the two consecutive-direction counters is
non-zero — confirming one direction zeroes the other — and this holds after
construction and is preserved by every `update`, `reset` and `switch_arm`
call.  "Exactly one" fails because both counters are zero initially and after
every state transition. -/
theorem at_most_one_counter_nonzero :
    (∀ (arm : String) (t0 : ℚ),
      (mkDetector arm t0).up_movement_count = 0 ∨
        (mkDetector arm t0).down_movement_count = 0) ∧
    (∀ (s : Detector) (d : List (String × Option ℚ)) (t : ℚ),
      (s.up_movement_count = 0 ∨ s.down_movement_count = 0) →
        ((update s d t).1.up_movement_count = 0 ∨
          (update s d t).1.down_movement_count = 0)) ∧
    (∀ s : Detector,
      (reset s).up_movement_count = 0 ∨ (reset s).down_movement_count = 0) ∧
    (∀ (s : Detector) (newArm : String),
      (s.up_movement_count = 0 ∨ s.down_movement_count = 0) →
        ((switch_arm s newArm).1.up_movement_count = 0 ∨
          (switch_arm s newArm).1.down_movement_count = 0)) := by
  refine ⟨fun arm t0 => Or.inl rfl, ?_, fun s => Or.inl rfl, ?_⟩
  · intro s d t h
    cases hd : dictGet d s.angle_key with
    | none => rw [update_fst_none s d t hd]; exact h
    | some a =>
      rw [update_fst_some s d t a hd]
      dsimp only
      set c := (get_sustained_movement_direction
          { s with angle_history := update_angle_history s.angle_history a }).2 with hc
      set r2 := detect_state_change c a t with hr2
      have hamoc : c.up_movement_count = 0 ∨ c.down_movement_count = 0 :=
        gsmd_amo _ h
      have hamo2 : r2.2.up_movement_count = 0 ∨ r2.2.down_movement_count = 0 := by
        rcases detect_snd c a t with h2 | h2 <;> rw [← hr2] at h2 <;> rw [h2]
        · exact hamoc
        · exact gsmd_amo c hamoc
      by_cases hbr : r2.1 ≠ r2.2.state
      · rw [if_pos hbr]
        obtain ⟨pp, vv, htr⟩ := tracking_spec (handle_state_transition r2.2 r2.1 a t) a
        rw [htr]
        exact Or.inl (handle_counts r2.2 r2.1 a t).1
      · rw [if_neg hbr]
        obtain ⟨pp, vv, htr⟩ := tracking_spec r2.2 a
        rw [htr]
        exact hamo2
  · intro s newArm h
    unfold switch_arm
    split_ifs
    · exact Or.inl rfl
    · exact h

/-- Witness for the amended C7 through a concrete `update` call. -/
theorem at_most_one_counter_nonzero_witness :
    (update (mkDetector "right" 0) [("right_shoulder", some 30)] 1).1.up_movement_count = 0 ∨
    (update (mkDetector "right" 0) [("right_shoulder", some 30)] 1).1.down_movement_count
      = 0 :=
  at_most_one_counter_nonzero.2.1 (mkDetector "right" 0) [("right_shoulder", some 30)] 1
    (Or.inl rfl)


theorem detect_preserves (s0 : Detector) (a t : ℚ) :
    (detect_state_change s0 a t).2.rep_history = s0.rep_history ∧
    (detect_state_change s0 a t).2.current_rep = s0.current_rep ∧
    (detect_state_change s0 a t).2.state = s0.state ∧
    (detect_state_change s0 a t).2.peak_angle = s0.peak_angle ∧
    (detect_state_change s0 a t).2.valley_angle = s0.valley_angle ∧
    (detect_state_change s0 a t).2.rep_count = s0.rep_count := by
  rcases detect_snd s0 a t with h | h <;> rw [h]
  · exact ⟨rfl, rfl, rfl, rfl, rfl, rfl⟩
  · have hg := gsmd_preserves s0
    exact ⟨hg.1, hg.2.1, hg.2.2.1, hg.2.2.2.1, hg.2.2.2.2.1, hg.2.2.2.2.2.1⟩

theorem pipeline_preserves (s : Detector) (a t : ℚ) :
    (detect_state_change (get_sustained_movement_direction
        { s with angle_history := update_angle_history s.angle_history a }).2 a t).2.rep_history
      = s.rep_history ∧
    (detect_state_change (get_sustained_movement_direction
        { s with angle_history := update_angle_history s.angle_history a }).2 a t).2.current_rep
      = s.current_rep ∧
    (detect_state_change (get_sustained_movement_direction
        { s with angle_history := update_angle_history s.angle_history a }).2 a t).2.state
      = s.state ∧
    (detect_state_change (get_sustained_movement_direction
        { s with angle_history := update_angle_history s.angle_history a }).2 a t).2.peak_angle
      = s.peak_angle ∧
    (detect_state_change (get_sustained_movement_direction
        { s with angle_history := update_angle_history s.angle_history a }).2 a t).2.valley_angle
      = s.valley_angle ∧
    (detect_state_change (get_sustained_movement_direction
        { s with angle_history := update_angle_history s.angle_history a }).2 a t).2.rep_count
      = s.rep_count := by
  have h1 := gsmd_preserves { s with angle_history := update_angle_history s.angle_history a }
  have h2 := detect_preserves (get_sustained_movement_direction
      { s with angle_history := update_angle_history s.angle_history a }).2 a t
  exact ⟨h2.1.trans h1.1, h2.2.1.trans h1.2.1, h2.2.2.1.trans h1.2.2.1,
    h2.2.2.2.1.trans h1.2.2.2.1, h2.2.2.2.2.1.trans h1.2.2.2.2.1,
    h2.2.2.2.2.2.trans h1.2.2.2.2.2.1⟩

/-- Claim C10: `rep_count` always equals the length of the Repetition Ledger: the
equality holds after construction and is preserved by every `update` (a
completed rep is appended and counted in the same transition), by `reset`,
and by `switch_arm`. -/
theorem rep_count_eq_ledger_length :
    (∀ (arm : String) (t0 : ℚ),
      (mkDetector arm t0).rep_count = (mkDetector arm t0).rep_history.length) ∧
    (∀ (s : Detector) (d : List (String × Option ℚ)) (t : ℚ),
      s.rep_count = s.rep_history.length →
        (update s d t).1.rep_count = (update s d t).1.rep_history.length) ∧
    (∀ s : Detector, (reset s).rep_count = (reset s).rep_history.length) ∧
    (∀ (s : Detector) (newArm : String),
      s.rep_count = s.rep_history.length →
        (switch_arm s newArm).1.rep_count = (switch_arm s newArm).1.rep_history.length) := by
  refine ⟨fun arm t0 => rfl, ?_, fun s => rfl, ?_⟩
  · intro s d t h
    cases hd : dictGet d s.angle_key with
    | none => rw [update_fst_none s d t hd]; exact h
    | some a =>
      rw [update_fst_some s d t a hd]
      dsimp only
      set c := (get_sustained_movement_direction
          { s with angle_history := update_angle_history s.angle_history a }).2 with hc
      set r2 := detect_state_change c a t with hr2
      have hcs : c.state = s.state :=
        (gsmd_preserves { s with angle_history := update_angle_history s.angle_history a }).2.2.1
      have hpp := pipeline_preserves s a t
      rw [← hr2] at hpp
      obtain ⟨h2h, h2cr, h2s, h2p, h2v, h2c⟩ := hpp
      by_cases hbr : r2.1 ≠ r2.2.state
      · rw [if_pos hbr]
        rcases detect_cases c a t with hcase | ⟨hst, hns⟩ | ⟨hst, hns⟩ | ⟨hst, hns⟩ <;>
          rw [← hr2] at *
        · exact absurd (by rw [hcase, hcs, ← h2s]) hbr
        · rw [hns, handle_neutral_to_up r2.2 a t (by rw [h2s, ← hcs, hst])]
          obtain ⟨pp, vv, htr⟩ := tracking_spec _ a
          rw [htr]
          dsimp only
          rw [h2c, h2h]
          exact h
        · rw [hns]
          cases hcr : r2.2.current_rep with
          | none =>
            rw [handle_up_to_down_none r2.2 a t (by rw [h2s, ← hcs, hst]) hcr]
            obtain ⟨pp, vv, htr⟩ := tracking_spec _ a
            rw [htr]
            dsimp only
            rw [h2c, h2h]
            exact h
          | some r =>
            rw [handle_up_to_down_some r2.2 r a t (by rw [h2s, ← hcs, hst]) hcr]
            obtain ⟨pp, vv, htr⟩ := tracking_spec _ a
            rw [htr]
            dsimp only
            rw [h2c, h2h]
            exact h
        · have h2down : r2.2.state = ExerciseState.down_phase := by rw [h2s, ← hcs, hst]
          rcases hns with hns | hns <;> rw [hns]
          · cases hcr : r2.2.current_rep with
            | none =>
              rw [handle_norep r2.2 a t h2down hcr]
              obtain ⟨pp, vv, htr⟩ := tracking_spec _ a
              rw [htr]
              dsimp only
              rw [h2c, h2h]
              exact h
            | some r =>
              by_cases hg : 40 < orDefault r2.2.peak_angle 0 - orDefault r2.2.valley_angle a
              · rw [handle_commit r2.2 r a t h2down hcr hg]
                obtain ⟨pp, vv, htr⟩ := tracking_spec _ a
                rw [htr]
                dsimp only
                rw [h2c, h2h, List.length_append, h]
                rfl
              · rw [handle_discard r2.2 r a t h2down hcr hg]
                obtain ⟨pp, vv, htr⟩ := tracking_spec _ a
                rw [htr]
                dsimp only
                rw [h2c, h2h]
                exact h
          · rw [handle_down_to_up r2.2 a t h2down]
            obtain ⟨pp, vv, htr⟩ := tracking_spec _ a
            rw [htr]
            dsimp only
            rw [h2c, h2h]
            exact h
      · rw [if_neg hbr]
        obtain ⟨pp, vv, htr⟩ := tracking_spec r2.2 a
        rw [htr]
        dsimp only
        rw [h2c, h2h]
        exact h
  · intro s newArm h
    unfold switch_arm
    split_ifs
    · rfl
    · exact h

/-- Witness for C10 through a concrete `update` call on a fresh detector. -/
theorem rep_count_eq_ledger_length_witness :
    (update (mkDetector "right" 0) [("right_shoulder", some 30)] 1).1.rep_count =
      (update (mkDetector "right" 0) [("right_shoulder", some 30)] 1).1.rep_history.length :=
  rep_count_eq_ledger_length.2.1 (mkDetector "right" 0) [("right_shoulder", some 30)] 1 rfl


theorem complete_rep_eq (r : RepData) (t1 : ℚ) (hne : r.start_time ≠ 0) :
    RepData.complete_rep r t1 =
      { r with end_time := some t1, duration := some (t1 - r.start_time) } := by
  unfold RepData.complete_rep
  dsimp only
  rw [if_pos hne]

theorem tracking_peak_some (s : Detector) (a p : ℚ) (h : s.state = ExerciseState.up_phase)
    (hp : s.peak_angle = some p) :
    ∃ q, (update_angle_tracking s a).peak_angle = some q := by
  rw [tracking_up_some s a p h hp]
  split_ifs
  · exact ⟨a, rfl⟩
  · exact ⟨p, hp⟩

theorem tracking_peak_of_down (s : Detector) (a : ℚ) (h : s.state = ExerciseState.down_phase) :
    (update_angle_tracking s a).peak_angle = s.peak_angle := by
  cases hv : s.valley_angle with
  | none => rw [tracking_down_none s a h hv]
  | some v =>
    rw [tracking_down_some s a v h hv]
    split_ifs <;> rfl

theorem detInv_init (arm : String) (t0 : ℚ) : DetInv (mkDetector arm t0) t0 := by
  refine ⟨?_, ?_, ?_, ?_⟩
  · intro r hr
    exact absurd hr (List.not_mem_nil r)
  · intro r hr
    exact Option.noConfusion hr
  · intro hst
    exact ExerciseState.noConfusion hst
  · intro hne
    exact absurd rfl hne

theorem detInv_mono {s : Detector} {t t1 : ℚ} (h : DetInv s t) (hle : t ≤ t1) :
    DetInv s t1 := by
  obtain ⟨h1, h2, h3, h4⟩ := h
  exact ⟨h1, fun r hr => ⟨(h2 r hr).1, le_trans (h2 r hr).2 hle⟩, h3, h4⟩

set_option maxHeartbeats 2000000 in
theorem detInv_step {s : Detector} {t : ℚ} (hinv : DetInv s t)
    (d : List (String × Option ℚ)) {t1 : ℚ} (hle : t ≤ t1) (hpos : 0 < t1) :
    DetInv (update s d t1).1 t1 := by
  obtain ⟨H1, H2, H3, H4⟩ := hinv
  cases hd : dictGet d s.angle_key with
  | none =>
    rw [update_fst_none s d t1 hd]
    exact detInv_mono ⟨H1, H2, H3, H4⟩ hle
  | some a =>
    rw [update_fst_some s d t1 a hd]
    dsimp only
    set c := (get_sustained_movement_direction
        { s with angle_history := update_angle_history s.angle_history a }).2 with hc
    set r2 := detect_state_change c a t1 with hr2
    have hcs : c.state = s.state :=
      (gsmd_preserves { s with angle_history := update_angle_history s.angle_history a }).2.2.1
    have hpp := pipeline_preserves s a t1
    rw [← hr2] at hpp
    obtain ⟨h2h, h2cr, h2s, h2p, h2v, h2c⟩ := hpp
    have H1' : ∀ r ∈ r2.2.rep_history, GoodRep r := by rw [h2h]; exact H1
    have H2' : ∀ r, r2.2.current_rep = some r → 0 < r.start_time ∧ r.start_time ≤ t1 := by
      rw [h2cr]
      exact fun r hr => ⟨(H2 r hr).1, le_trans (H2 r hr).2 hle⟩
    have H3' : r2.2.state = ExerciseState.down_phase → ∀ r, r2.2.current_rep = some r →
        r.max_angle = r2.2.peak_angle := by
      rw [h2s, h2cr, h2p]
      exact H3
    have H4' : r2.2.state ≠ ExerciseState.neutral → ∃ p, r2.2.peak_angle = some p := by
      rw [h2s, h2p]
      exact H4
    by_cases hbr : r2.1 ≠ r2.2.state
    · rw [if_pos hbr]
      rcases detect_cases c a t1 with hcase | ⟨hst, hns⟩ | ⟨hst, hns⟩ | ⟨hst, hns⟩ <;>
        rw [← hr2] at *
      · exact absurd (by rw [hcase, hcs, ← h2s]) hbr
      · -- Neutral → UpPhase: a fresh candidate opens with start time t1
        rw [hns, handle_neutral_to_up r2.2 a t1 (by rw [h2s, ← hcs, hst])]
        rw [tracking_up_some _ a a rfl rfl]
        split_ifs with hlt <;> refine ⟨?_, ?_, ?_, ?_⟩ <;> (try dsimp only)
        · exact H1'
        · intro r hr
          obtain rfl : ({ start_time := t1 } : RepData) = r := Option.some.inj hr
          exact ⟨hpos, le_refl t1⟩
        · intro hcontra
          exact absurd hcontra (by decide)
        · intro _
          exact ⟨a, rfl⟩
        · exact H1'
        · intro r hr
          obtain rfl : ({ start_time := t1 } : RepData) = r := Option.some.inj hr
          exact ⟨hpos, le_refl t1⟩
        · intro hcontra
          exact absurd hcontra (by decide)
        · intro _
          exact ⟨a, rfl⟩
      · -- UpPhase → DownPhase: the candidate's max_angle freezes to the peak
        have h2up : r2.2.state = ExerciseState.up_phase := by rw [h2s, ← hcs, hst]
        obtain ⟨p, hp⟩ : ∃ p, r2.2.peak_angle = some p := H4' (by rw [h2up]; decide)
        rw [hns]
        cases hcr : r2.2.current_rep with
        | none =>
          rw [handle_up_to_down_none r2.2 a t1 h2up hcr]
          have hpk := tracking_peak_of_down
            ({ r2.2 with state := ExerciseState.down_phase, state_change_time := t1,
                         up_movement_count := 0, down_movement_count := 0,
                         cumulative_movement := 0 } : Detector) a rfl
          obtain ⟨pp, vv, htr⟩ := tracking_spec
            ({ r2.2 with state := ExerciseState.down_phase, state_change_time := t1,
                         up_movement_count := 0, down_movement_count := 0,
                         cumulative_movement := 0 } : Detector) a
          rw [htr] at hpk ⊢
          refine ⟨?_, ?_, ?_, ?_⟩ <;> (try dsimp only)
          · exact H1'
          · intro r hr
            rw [hcr] at hr
            exact Option.noConfusion hr
          · intro _ r hr
            rw [hcr] at hr
            exact Option.noConfusion hr
          · intro _
            dsimp only at hpk
            exact ⟨p, by rw [hpk]; exact hp⟩
        | some r =>
          rw [handle_up_to_down_some r2.2 r a t1 h2up hcr]
          have hpk := tracking_peak_of_down
            ({ r2.2 with current_rep := some { r with max_angle := r2.2.peak_angle },
                         state := ExerciseState.down_phase, state_change_time := t1,
                         up_movement_count := 0, down_movement_count := 0,
                         cumulative_movement := 0 } : Detector) a rfl
          obtain ⟨pp, vv, htr⟩ := tracking_spec
            ({ r2.2 with current_rep := some { r with max_angle := r2.2.peak_angle },
                         state := ExerciseState.down_phase, state_change_time := t1,
                         up_movement_count := 0, down_movement_count := 0,
                         cumulative_movement := 0 } : Detector) a
          rw [htr] at hpk ⊢
          dsimp only at hpk
          refine ⟨?_, ?_, ?_, ?_⟩ <;> (try dsimp only)
          · exact H1'
          · intro r' hr'
            obtain rfl : ({ r with max_angle := r2.2.peak_angle } : RepData) = r' :=
              Option.some.inj hr'
            exact H2' r hcr
          · intro _ r' hr'
            obtain rfl : ({ r with max_angle := r2.2.peak_angle } : RepData) = r' :=
              Option.some.inj hr'
            rw [hpk]
          · intro _
            exact ⟨p, by rw [hpk]; exact hp⟩
      · have h2down : r2.2.state = ExerciseState.down_phase := by rw [h2s, ← hcs, hst]
        rcases hns with hns | hns <;> rw [hns]
        · -- DownPhase → Neutral: commit or discard the candidate
          cases hcr : r2.2.current_rep with
          | none =>
            rw [handle_norep r2.2 a t1 h2down hcr]
            rw [tracking_neutral _ a rfl]
            refine ⟨?_, ?_, ?_, ?_⟩ <;> (try dsimp only)
            · exact H1'
            · intro r hr
              rw [hcr] at hr
              exact Option.noConfusion hr
            · intro hcontra
              exact absurd hcontra (by decide)
            · intro hcontra
              exact absurd rfl hcontra
          | some r =>
            by_cases hg : 40 < orDefault r2.2.peak_angle 0 - orDefault r2.2.valley_angle a
            · rw [handle_commit r2.2 r a t1 h2down hcr hg]
              rw [tracking_neutral _ a rfl]
              obtain ⟨p, hp⟩ : ∃ p, r2.2.peak_angle = some p :=
                H4' (by rw [h2down]; decide)
              have hstart := H2' r hcr
              have hmax : r.max_angle = some p := by
                rw [H3' h2down r hcr]
                exact hp
              refine ⟨?_, ?_, ?_, ?_⟩ <;> (try dsimp only)
              · intro r' hr'
                rw [List.mem_append, List.mem_singleton] at hr'
                rcases hr' with hr' | rfl
                · exact H1' r' hr'
                · refine ⟨t1, t1 - r.start_time,
                    p, orDefault r2.2.valley_angle a, ?_, ?_, ?_, ?_, ?_, ?_, ?_⟩
                  · rw [complete_rep_eq r t1 (ne_of_gt hstart.1)]
                  · rw [complete_rep_eq r t1 (ne_of_gt hstart.1)]
                  · rw [complete_rep_eq r t1 (ne_of_gt hstart.1)]
                  · linarith [hstart.2]
                  · rw [complete_rep_eq r t1 (ne_of_gt hstart.1)]
                    dsimp only
                    exact hmax
                  · rfl
                  · rw [hp, orDefault_some_zero] at hg
                    linarith
              · intro r' hr'
                exact Option.noConfusion hr'
              · intro hcontra
                exact absurd hcontra (by decide)
              · intro hcontra
                exact absurd rfl hcontra
            · rw [handle_discard r2.2 r a t1 h2down hcr hg]
              rw [tracking_neutral _ a rfl]
              refine ⟨?_, ?_, ?_, ?_⟩ <;> (try dsimp only)
              · exact H1'
              · intro r' hr'
                exact Option.noConfusion hr'
              · intro hcontra
                exact absurd hcontra (by decide)
              · intro hcontra
                exact absurd rfl hcontra
        · -- DownPhase → UpPhase: candidate and peak carry over
          rw [handle_down_to_up r2.2 a t1 h2down]
          obtain ⟨p, hp⟩ : ∃ p, r2.2.peak_angle = some p := H4' (by rw [h2down]; decide)
          set R : Detector :=
            { r2.2 with state := ExerciseState.up_phase, state_change_time := t1,
                        up_movement_count := 0, down_movement_count := 0,
                        cumulative_movement := 0 } with hR
          have hpR : R.peak_angle = some p := hp
          rw [tracking_up_some R a p rfl hpR]
          split_ifs with hlt <;> refine ⟨?_, ?_, ?_, ?_⟩ <;> (try dsimp only)
          · exact H1'
          · exact fun r hr => H2' r hr
          · intro hcontra
            exact absurd hcontra (by decide)
          · intro _
            exact ⟨a, rfl⟩
          · exact H1'
          · exact fun r hr => H2' r hr
          · intro hcontra
            exact absurd hcontra (by decide)
          · intro _
            exact ⟨p, hp⟩
    · rw [if_neg hbr]
      -- no transition: the state is unchanged and tracking only tightens
      -- the peak (UpPhase) or the valley (DownPhase)
      cases hstate : r2.2.state with
      | neutral =>
        rw [tracking_neutral r2.2 a hstate]
        refine ⟨H1', H2', ?_, ?_⟩
        · intro hcontra
          rw [hstate] at hcontra
          exact ExerciseState.noConfusion hcontra
        · intro hcontra
          exact absurd hstate hcontra
      | up_phase =>
        obtain ⟨p, hp⟩ : ∃ p, r2.2.peak_angle = some p := H4' (by rw [hstate]; decide)
        rw [tracking_up_some r2.2 a p hstate hp]
        split_ifs with hlt <;> refine ⟨?_, ?_, ?_, ?_⟩ <;> (try dsimp only)
        · exact H1'
        · exact H2'
        · intro hcontra
          rw [hstate] at hcontra
          exact ExerciseState.noConfusion hcontra
        · intro _
          exact ⟨a, rfl⟩
        · exact H1'
        · exact H2'
        · intro hcontra
          rw [hstate] at hcontra
          exact ExerciseState.noConfusion hcontra
        · intro _
          exact ⟨p, hp⟩
      | down_phase =>
        have hpk := tracking_peak_of_down r2.2 a hstate
        obtain ⟨pp, vv, htr⟩ := tracking_spec r2.2 a
        rw [htr] at hpk ⊢
        dsimp only at hpk
        refine ⟨?_, ?_, ?_, ?_⟩ <;> (try dsimp only)
        · exact H1'
        · exact H2'
        · intro _ r hr
          rw [hpk]
          exact H3' hstate r hr
        · intro _
          obtain ⟨p, hp⟩ : ∃ p, r2.2.peak_angle = some p := H4' (by rw [hstate]; decide)
          exact ⟨p, by rw [hpk]; exact hp⟩

/-- Claim C1: along any run of `update` calls from construction (wall-clock times
positive and non-decreasing), every CompletedRep in the Repetition Ledger has
`duration = end_time - start_time ≥ 0` and a range of motion
`max_angle - min_angle ≥ 40`; and a DownPhase-to-Neutral return whose
candidate range of motion does not clear the 40 degree gate appends nothing
to the ledger and does not increment the rep count. -/
theorem rep_conservation :
    (∀ (s : Detector) (t : ℚ), ReachableAt s t → ∀ r ∈ s.rep_history, GoodRep r) ∧
    (∀ (s : Detector) (rc : RepData) (a t : ℚ),
      s.state = ExerciseState.down_phase → s.current_rep = some rc →
      orDefault s.peak_angle 0 - orDefault s.valley_angle a ≤ 40 →
      (handle_state_transition s ExerciseState.neutral a t).rep_history = s.rep_history ∧
      (handle_state_transition s ExerciseState.neutral a t).rep_count = s.rep_count) := by
  constructor
  · intro s t hreach
    have hinv : DetInv s t := by
      induction hreach with
      | init arm t0 => exact detInv_init arm t0
      | step d hr hle hpos ih => exact detInv_step ih d hle hpos
    exact hinv.1
  · intro s rc a t hst hcr hgate
    rw [handle_discard s rc a t hst hcr (not_lt.mpr hgate)]
    exact ⟨rfl, rfl⟩

/-- Witness for C1: the freshly constructed detector is reachable with an
empty (hence conserving) ledger, and a concrete sub-gate candidate (peak 50,
valley 20, range 30) is discarded without touching ledger or count. -/
theorem rep_conservation_witness :
    (∀ r ∈ (mkDetector "right" 0).rep_history, GoodRep r) ∧
    ((handle_state_transition
        { mkDetector "right" 0 with state := ExerciseState.down_phase,
                                    current_rep := some { start_time := 3 },
                                    peak_angle := some 50,
                                    valley_angle := some 20 }
        ExerciseState.neutral 20 5).rep_history =
      ({ mkDetector "right" 0 with state := ExerciseState.down_phase,
                                   current_rep := some { start_time := 3 },
                                   peak_angle := some 50,
                                   valley_angle := some 20 } : Detector).rep_history ∧
     (handle_state_transition
        { mkDetector "right" 0 with state := ExerciseState.down_phase,
                                    current_rep := some { start_time := 3 },
                                    peak_angle := some 50,
                                    valley_angle := some 20 }
        ExerciseState.neutral 20 5).rep_count =
      ({ mkDetector "right" 0 with state := ExerciseState.down_phase,
                                   current_rep := some { start_time := 3 },
                                   peak_angle := some 50,
                                   valley_angle := some 20 } : Detector).rep_count) := by
  constructor
  · exact rep_conservation.1 (mkDetector "right" 0) 0 (ReachableAt.init "right" 0)
  · exact rep_conservation.2 _ { start_time := 3 } 20 5 rfl rfl
      (by with_unfolding_all decide)

end ShoulderAbduction
